import Mathlib

/-! Verification of the registration-and-dispatch substrate of the
mcp-chatgpt server: the tool registry (schema validation and error
normalization around tool handlers), the resource registry (content
normalization and duplicate detection), the URL-salt store and the
TypeScript auto-discovery scanner.  Each definition is a shallow
embedding of the corresponding TypeScript function; JavaScript promise
rejections and thrown exceptions are modelled as `Except.error`, and the
module-level mutable salt variable is modelled by explicit state
passing. -/

/-! ## JavaScript values

A raw untyped argument value as the tool invoke wrapper receives it.
Arrays and nested host objects are not needed by any registered schema;
objects are association lists of fields in insertion order. -/

inductive JSValue where
  | undefined : JSValue
  | null : JSValue
  | boolean : Bool → JSValue
  | number : Int → JSValue
  | str : String → JSValue
  | obj : List (String × JSValue) → JSValue

/-- The guard `typeof args === 'object' && args !== null` of the invoke
wrapper in ToolRegistry.register: true exactly for non-null objects. -/
def JSValue.isNonNullObject : JSValue → Bool
  | .obj _ => true
  | _ => false

/-! ## Schema validator (contract of the external zod library)

`ToolRegistry.register` builds `z.object(config.inputSchema)` and calls
`.parse(args)` on the raw arguments.  The external library is modelled
by its contract: a declared shape maps field names to type descriptors;
`parse` fails when the value is not an object, when a declared field is
missing, or when a declared field has the wrong type, reporting every
violated constraint; on success it returns the object restricted to the
declared fields (zod strips unknown keys by default). -/

inductive FieldType where
  | string : FieldType
  | number : FieldType
  | boolean : FieldType

abbrev InputSchema := List (String × FieldType)

def FieldType.describe : FieldType → String
  | .string => "string"
  | .number => "number"
  | .boolean => "boolean"

def JSValue.typeName : JSValue → String
  | .undefined => "undefined"
  | .null => "null"
  | .boolean _ => "boolean"
  | .number _ => "number"
  | .str _ => "string"
  | .obj _ => "object"

/-- Does a raw value satisfy a declared field type? -/
def checkField (ty : FieldType) (v : JSValue) : Bool :=
  match ty, v with
  | .string, .str _ => true
  | .number, .number _ => true
  | .boolean, .boolean _ => true
  | _, _ => false

/-- Lookup of an object field by name. -/
def lookupField (fields : List (String × JSValue)) (name : String) : Option JSValue :=
  match fields.find? (fun p => p.1 == name) with
  | some p => some p.2
  | none => none

/-- The validation issue a single declared field contributes, if any. -/
def fieldIssue (fields : List (String × JSValue)) (entry : String × FieldType) :
    Option String :=
  match lookupField fields entry.1 with
  | none => some (entry.1 ++ ": Required")
  | some v =>
    if checkField entry.2 v then none
    else some (entry.1 ++ ": Expected " ++ entry.2.describe ++ ", received " ++ v.typeName)

/-- Contract of `z.object(shape).parse(value)`: a structured validation
failure listing every violated constraint, or the validated object
restricted to the declared fields. -/
def zodObjectParse (schema : InputSchema) (v : JSValue) : Except String JSValue :=
  match v with
  | .obj fields =>
    let issues := schema.filterMap (fieldIssue fields)
    if issues.isEmpty then
      .ok (.obj (schema.filterMap (fun e =>
        (lookupField fields e.1).map (fun val => (e.1, val)))))
    else
      .error (String.intercalate ("; ") issues)
  | other => .error ("Expected object, received " ++ other.typeName)

/-! ## Tool registry (src tools registry: ToolRegistry)

`register` rejects duplicate names and installs an invoke wrapper around
the implementation; the wrapper validates non-null object arguments
against the declared input schema before the handler runs and converts
every thrown exception into an error-flagged result value. -/

structure ContentBlock where
  type : String
  text : String

structure ToolResult where
  content : List ContentBlock
  isError : Bool

structure ToolConfig where
  name : String
  description : String
  inputSchema : Option InputSchema

/-- A tool handler.  Its argument is whatever the wrapper passes as
`parsedArgs`; `Except.error msg` models the handler throwing an
exception whose message is `msg`. -/
abbrev ToolImplementation := JSValue → Except String ToolResult

structure ToolDefinition where
  config : ToolConfig
  implementation : ToolImplementation

/-- The result built by the invoke wrapper when schema validation fails:
`Input validation failed for NAME: MESSAGE`, marked as an error. -/
def validationErrorResult (name msg : String) : ToolResult :=
  { content := [{ type := "text", text := "Input validation failed for " ++ name ++ ": " ++ msg }],
    isError := true }

/-- The result built by the invoke wrapper when the handler throws:
`Error executing NAME: MESSAGE`, marked as an error. -/
def executionErrorResult (name msg : String) : ToolResult :=
  { content := [{ type := "text", text := "Error executing " ++ name ++ ": " ++ msg }],
    isError := true }

/-- The `await implementation(parsedArgs)` step under the outer
try/catch: a thrown exception becomes an error-flagged result.  The
second component records the exact argument the handler was applied to
(the instrumentation the spec asks for: a handler that records whether
it ran); it is produced at the single call site of the handler. -/
def runHandler (config : ToolConfig) (implementation : ToolImplementation)
    (parsedArgs : JSValue) : ToolResult × Option JSValue :=
  match implementation parsedArgs with
  | .ok r => (r, some parsedArgs)
  | .error msg => (executionErrorResult config.name msg, some parsedArgs)

/-- The invoke wrapper ToolRegistry.register installs: when an input
schema is declared and the raw arguments are a non-null object, parse
them with the zod object schema, returning an error-flagged result on
failure without reaching the handler; otherwise the handler receives
the raw arguments unchanged.  The second component is `some a` exactly
when the handler ran, applied to `a`, and `none` when it never ran. -/
def toolInvoke (config : ToolConfig) (implementation : ToolImplementation)
    (args : JSValue) : ToolResult × Option JSValue :=
  match config.inputSchema, args with
  | some schema, .obj fields =>
    match zodObjectParse schema (.obj fields) with
    | .ok parsedArgs => runHandler config implementation parsedArgs
    | .error msg => (validationErrorResult config.name msg, none)
  | _, _ => runHandler config implementation args

/-- The tool registry state: the `registeredTools` map, an insertion
ordered association of tool names to definitions. -/
abbrev ToolRegistry := List (String × ToolDefinition)

/-- `registeredTools.has(name)`. -/
def ToolRegistry.hasName (reg : ToolRegistry) (name : String) : Bool :=
  reg.any (fun p => p.1 == name)

/-- `ToolRegistry.register`: throws on a duplicate tool name, otherwise
records the definition under its name. -/
def ToolRegistry.register (reg : ToolRegistry) (tool : ToolDefinition) :
    Except String ToolRegistry :=
  if ToolRegistry.hasName reg tool.config.name then
    .error ("Tool \x27" ++ tool.config.name ++ "\x27 is already registered")
  else
    .ok (reg ++ [(tool.config.name, tool)])

/-! ## Resource registry (src resources registry: ResourceRegistry) -/

/-- What a resource content producer resolves with: optional `text`,
optional base64 `blob`. -/
structure ProducerOutput where
  text : Option String
  blob : Option String

structure ResourceConfig where
  uri : String
  name : String
  description : String
  mimeType : String

/-- A registered resource.  `producer` is the outcome of invoking the
implementation in the run under consideration: `Except.error msg`
models the producer throwing with message `msg`. -/
structure ResourceDefinition where
  config : ResourceConfig
  producer : Except String ProducerOutput

/-- One MCP content object as the read callback builds it. -/
structure ResourceContent where
  uri : String
  mimeType : String
  text : Option String
  blob : Option String

structure ReadResult where
  contents : List ResourceContent

/-- Content normalization of the read callback: start from the
registered uri and mimeType, then set `text` when the producer supplied
text, else `blob` when supplied, else default to empty text. -/
def normalizeContent (config : ResourceConfig) (content : ProducerOutput) :
    ResourceContent :=
  match content.text with
  | some t => { uri := config.uri, mimeType := config.mimeType, text := some t, blob := none }
  | none =>
    match content.blob with
    | some b => { uri := config.uri, mimeType := config.mimeType, text := none, blob := some b }
    | none => { uri := config.uri, mimeType := config.mimeType, text := some (""), blob := none }

/-- The read callback ResourceRegistry.register installs: on success it
returns the normalized content object; when the producer throws it
catches the error and rethrows a new error naming the offending uri
(the `.error` case is a thrown exception, not a returned value). -/
def ResourceRegistry.readCallback (config : ResourceConfig)
    (producer : Except String ProducerOutput) : Except String ReadResult :=
  match producer with
  | .ok content => .ok { contents := [normalizeContent config content] }
  | .error msg => .error ("Error reading resource " ++ config.uri ++ ": " ++ msg)

/-- The resource registry state: the `registeredResources` map keyed by
the registered uri string. -/
abbrev ResourceRegistry := List (String × ResourceDefinition)

/-- `registeredResources.has(uri)`: membership of the raw uri string. -/
def ResourceRegistry.hasUri (reg : ResourceRegistry) (uri : String) : Bool :=
  reg.any (fun p => p.1 == uri)

/-- `ResourceRegistry.register`: throws on a duplicate uri, otherwise
records the definition under its raw uri string. -/
def ResourceRegistry.register (reg : ResourceRegistry) (resource : ResourceDefinition) :
    Except String ResourceRegistry :=
  if ResourceRegistry.hasUri reg resource.config.uri then
    .error ("Resource \x27" ++ resource.config.uri ++ "\x27 is already registered")
  else
    .ok (reg ++ [(resource.config.uri, resource)])

/-! ## Salt store (typescript-resource-factory: urlSalt)

The module-level mutable `urlSalt : string | null` is modelled as an
explicit `Option String` state. -/

abbrev UrlSaltState := Option String

/-- `initializeUrlSalt()`: assigns `Date.now().toString()` to the salt.
`startTimeMillis` is the value of `Date.now()` at the call.  The
function reads no environment variable. -/
def initializeUrlSalt (startTimeMillis : Nat) : UrlSaltState :=
  some (toString startTimeMillis)

/-- `getUrlSalt()`: throws when the salt is uninitialized.  The check is
the JavaScript falsy test `if (!urlSalt)`, which also rejects an empty
string. -/
def getUrlSalt (urlSalt : UrlSaltState) : Except String String :=
  match urlSalt with
  | some s =>
    if s = "" then .error ("URL salt not initialized. Call initializeUrlSalt() first.")
    else .ok s
  | none => .error ("URL salt not initialized. Call initializeUrlSalt() first.")

/-- `getUrlSalt()` as a state transition: the function body only reads
the module variable and assigns nothing, so the state after the call is
the state before it. -/
def getUrlSaltSt (urlSalt : UrlSaltState) : Except String (String × UrlSaltState) :=
  (getUrlSalt urlSalt).map (fun s => (s, urlSalt))

/-- `createSaltedUri(uriId)`: composes the salted uri from the current
salt; propagates the exception of `getUrlSalt` when uninitialized. -/
def createSaltedUri (urlSalt : UrlSaltState) (uriId : String) : Except String String :=
  (getUrlSalt urlSalt).map (fun salt => "dbk-ts://" ++ uriId ++ "?salt=" ++ salt)

/-- Modelled from the spec: the repository README documents the salt
source precedence — if the environment variable TS_SALT is set (and
non-empty, per the spec wording: present and non-empty, used verbatim)
that value is used, otherwise the salt defaults to the server start
timestamp.  The source `initializeUrlSalt` implements no such override;
this definition follows the documented contract for comparison. -/
def initializeUrlSaltDocumented (tsSalt : Option String) (startTimeMillis : Nat) : String :=
  match tsSalt with
  | some s => if s = "" then toString startTimeMillis else s
  | none => toString startTimeMillis

/-! ## Auto-discovery scanner (typescript-auto-discovery)

The filesystem the scanner and the resource factory touch is modelled
by `DiscoveryFS`: whether the `src/ts-resources` directory exists, the
filenames `readdir` lists in it, and an association of readable paths
to their contents (`readFile` of any other path rejects). -/

structure DiscoveryFS where
  tsResourcesDirExists : Bool
  tsResourcesFiles : List String
  fileContents : List (String × String)

/-- `readFile(path)`: resolves with the content of a readable path,
rejects with an ENOENT error otherwise. -/
def fsReadE (fs : DiscoveryFS) (path : String) : Except String String :=
  match List.lookup path fs.fileContents with
  | some content => .ok content
  | none => .error ("ENOENT: no such file or directory, open " ++ path)

/-- The suffix of the list after the first occurrence of `tag`, or none
when the tag never occurs. -/
def findAfter (tag : List Char) : List Char → Option (List Char)
  | [] => if tag.isPrefixOf ([] : List Char) then some [] else none
  | c :: rest =>
    if tag.isPrefixOf (c :: rest) then some ((c :: rest).drop tag.length)
    else findAfter tag rest

/-- `String.prototype.includes`. -/
def strContains (s pat : String) : Bool :=
  (findAfter pat.data s.data).isSome

/-- A double or single quote character. -/
def isQuoteChar (c : Char) : Bool :=
  c == Char.ofNat 34 || c == Char.ofNat 39

/-- The metadata line patterns of `extractFileMetadata`, such as
`@mcp-name:\s*["]([^"]+)["]` (either quote kind): after the first
occurrence of the tag on the line, skip whitespace, then a quoted
non-empty value terminated by the next quote character of either
kind. -/
def matchTagValue (tag : String) (line : String) : Option String :=
  match findAfter tag.data line.data with
  | none => none
  | some afterTag =>
    let rest := afterTag.dropWhile (fun c => c == Char.ofNat 32 || c == Char.ofNat 9)
    match rest with
    | [] => none
    | q :: rest2 =>
      if isQuoteChar q then
        let captured := rest2.takeWhile (fun c => !(isQuoteChar c))
        if captured.length < rest2.length then
          if captured.isEmpty then none else some (String.mk captured)
        else none
      else none

structure TypeScriptFileMetadata where
  name : Option String
  description : Option String
  uriId : Option String

/-- One line of the metadata scan: a matching tag overwrites the field
extracted from an earlier line. -/
def updateMetadataLine (md : TypeScriptFileMetadata) (line : String) :
    TypeScriptFileMetadata :=
  let md1 := match matchTagValue ("@mcp-name:") line with
    | some v => { md with name := some v }
    | none => md
  let md2 := match matchTagValue ("@mcp-description:") line with
    | some v => { md1 with description := some v }
    | none => md1
  match matchTagValue ("@mcp-uri:") line with
  | some v => { md2 with uriId := some v }
  | none => md2

/-- `extractFileMetadata(filePath)`: reads the file and scans its first
20 lines for `@mcp-name`, `@mcp-description` and `@mcp-uri` tags; if the
file cannot be read the internal catch returns empty metadata. -/
def extractFileMetadata (contents : List (String × String)) (filePath : String) :
    TypeScriptFileMetadata :=
  match List.lookup filePath contents with
  | none => { name := none, description := none, uriId := none }
  | some content =>
    ((content.splitOn ("\n")).take 20).foldl updateMetadataLine
      { name := none, description := none, uriId := none }

/-- Uppercase the first character of a word (the `\b\w` step of
`generateDisplayName`). -/
def capitalizeWord (w : String) : String :=
  match w.data with
  | [] => ""
  | c :: rest => String.mk (c.toUpper :: rest)

/-- The acronym words kept fully upper-cased, in their title-cased
spelling as produced by the preceding step. -/
def acronymWords : List String := ["Ts", "Js", "React", "Api", "Ui", "Ux"]

/-- `generateDisplayName(filename)`: kebab-case or snake_case to Title
Case, then the fixed acronym list upper-cased as whole words. -/
def generateDisplayName (filename : String) : String :=
  let spaced := String.mk (filename.data.map
    (fun c => if c == Char.ofNat 45 || c == Char.ofNat 95 then Char.ofNat 32 else c))
  let titled := (spaced.splitOn (" ")).map capitalizeWord
  String.intercalate (" ") (titled.map
    (fun w => if acronymWords.contains w then w.toUpper else w))

/-- The `DEFAULT_DESCRIPTIONS` table in its key insertion order. -/
def DEFAULT_DESCRIPTIONS : List (String × String) := [
  ("sample",
    "Basic TypeScript features including classes, interfaces, generics, and utility types"),
  ("sample2",
    "Advanced TypeScript patterns with async/await, enums, conditional types, and error handling"),
  ("react-sample",
    "React TypeScript component with JSX, hooks, event handling, and modern React patterns"),
  ("basic", "Basic TypeScript examples and fundamentals"),
  ("advanced", "Advanced TypeScript patterns and features"),
  ("hooks", "React hooks and TypeScript integration examples"),
  ("components", "TypeScript component examples and patterns")]

/-- `generateDescription(filename)`: exact table match first, then the
first table entry whose key is a substring of the filename, then the
generic placeholder. -/
def generateDescription (filename : String) : String :=
  match List.lookup filename DEFAULT_DESCRIPTIONS with
  | some d => d
  | none =>
    match DEFAULT_DESCRIPTIONS.find? (fun e => strContains filename e.1) with
    | some e => e.2
    | none => "TypeScript demonstration file showcasing various language features and patterns"

/-- `path.extname`: the suffix from the last dot, empty for a dotless
name or a lone leading dot. -/
def extname (file : String) : String :=
  let parts := file.splitOn (".")
  match parts with
  | [] => ""
  | [_] => ""
  | _ =>
    if file.startsWith (".") && parts.length == 2 then ""
    else "." ++ parts.getLastD ""

/-- `path.basename(file, extname(file))`: the filename with its
extension removed. -/
def basenameNoExt (file : String) : String :=
  file.dropRight (extname file).length

/-- The candidate filter of the discovery scan: recognized TypeScript
extensions, no hidden files, no declaration files. -/
def isTsResourceFile (file : String) : Bool :=
  (extname file == ".ts" || extname file == ".tsx") &&
    !(file.startsWith (".")) && !(file.endsWith (".d.ts"))

/-! ## TypeScript resource factory (typescript-resource-factory) -/

structure TypeScriptResourceConfig where
  filename : String
  uriId : String
  name : String
  description : String

/-- `JSON.stringify(importMap, null, 2)` for the fixed import map the
factory builds. -/
def importMapJson : String := String.intercalate ("\n") [
  "\x7b",
  "  \"imports\": \x7b",
  "    \"react\": \"https://esm.sh/react@18\",",
  "    \"react/jsx-runtime\": \"https://esm.sh/react@18/jsx-runtime\",",
  "    \"react-dom\": \"https://esm.sh/react-dom@18\",",
  "    \"react-dom/client\": \"https://esm.sh/react-dom@18/client\",",
  "    \"embla-carousel-react\": \"https://esm.sh/embla-carousel-react@8.3.1?deps=react@18\",",
  "    \"embla-carousel\": \"https://esm.sh/embla-carousel@8.3.1\"",
  "  \x7d",
  "\x7d"]

/-- The HTML body the factory implementation returns on a successful
bundle read: import map, mount div, the retained debug comment block
and the compiled code inside a module script. -/
def tsResourceHtml (uriId jsContent : String) : String :=
  String.intercalate ("\n") [
  "<script type=\"importmap\">" ++ importMapJson ++ "</script>",
  "<div id=\"ts-resource-" ++ uriId ++
    "\" style=\"background-color: #ddd; padding: 1em\">George can hack, tonsils.</div>",
  "// <script>",
  "//   // Debug: Check if import map exists in DOM",
  "//   console.log(\x27=== IMPORT MAP DEBUG ===\x27);",
  "//   const importMaps = document.querySelectorAll(\x27script[type=\"importmap\"]\x27);",
  "//   console.log(\x27Import maps found:\x27, importMaps.length);",
  "//   importMaps.forEach((map, i) => \x7b",
  "//     console.log(\x27Import map\x27, i, \x27:\x27, map.textContent);",
  "//   \x7d);",
  "//   console.log(\x27Document HTML:\x27, document.documentElement.outerHTML.substring(0, 500));",
  "//   console.log(\x27========================\x27);",
  "// </script>",
  "<script type=\"module\">",
  "  // Debug: Test import resolution before actual imports",
  "  // console.log(\x27=== MODULE DEBUG ===\x27);",
  "  // console.log(\x27About to try importing react/jsx-runtime...\x27);",
  "  // try \x7b",
  "  //   const result = await import(\x27react/jsx-runtime\x27);",
  "  //   console.log(\x27Import successful:\x27, result);",
  "  // \x7d catch (error) \x7b",
  "  //   console.error(\x27Import failed:\x27, error.message);",
  "  //   console.error(\x27Error details:\x27, error);",
  "  // \x7d",
  "  // console.log(\x27====================\x27);",
  "  ",
  "  // Original compiled code follows:",
  "  " ++ jsContent,
  "</script>"]

/-- The diagnostic payload of the factory implementation error branch:
served as ordinary text content when the compiled bundle cannot be
read. -/
def tsResourceErrorText (filename errorMessage : String) : String :=
  String.intercalate ("\n") [
  "// Error: Failed to read compiled JavaScript for " ++ filename,
  "// " ++ errorMessage,
  "// Hint: Make sure to run \"pnpm run build\" to compile TypeScript files",
  "// Expected file: dist/ts-resources/" ++ filename ++ ".js"]

/-- The factory implementation closure, by its outcome against `fs`: a
successful bundle read yields the HTML body; a failed read is caught
and yields the diagnostic error text.  Both branches resolve with text
content — the closure never rejects. -/
def tsResourceImplementation (fs : DiscoveryFS) (config : TypeScriptResourceConfig) :
    ProducerOutput :=
  match fsReadE fs ("dist/ts-resources/" ++ config.filename ++ ".js") with
  | .ok jsContent => { text := some (tsResourceHtml config.uriId jsContent), blob := none }
  | .error msg => { text := some (tsResourceErrorText config.filename msg), blob := none }

/-- `createTypeScriptResource(config)`: builds the resource definition
whose uri is the salted uri of the configured uriId; the
`createSaltedUri` call happens while the definition is constructed, so
an uninitialized salt store makes the whole call throw. -/
def createTypeScriptResource (urlSalt : UrlSaltState) (fs : DiscoveryFS)
    (config : TypeScriptResourceConfig) : Except String ResourceDefinition :=
  match createSaltedUri urlSalt config.uriId with
  | .error e => .error e
  | .ok uri =>
    .ok { config := { uri := uri, name := config.name,
                      description := config.description,
                      mimeType := "text/html+skybridge" },
          producer := .ok (tsResourceImplementation fs config) }

/-- The body of the per-file loop of `discoverTypeScriptResources`:
extract metadata (best effort), fill the missing fields from the
filename heuristics, and build the resource through the factory. -/
def tsFileStep (fs : DiscoveryFS) (urlSalt : UrlSaltState) (file : String) :
    Except String ResourceDefinition :=
  let filename := basenameNoExt file
  let filePath := "src/ts-resources/" ++ file
  let metadata := extractFileMetadata fs.fileContents filePath
  createTypeScriptResource urlSalt fs
    { filename := filename,
      uriId := metadata.uriId.getD filename,
      name := metadata.name.getD (generateDisplayName filename),
      description := metadata.description.getD (generateDescription filename) }

/-- `discoverTypeScriptResources()`: a missing directory is caught and
yields the empty list (with a warning); otherwise each candidate file
is processed inside its own try/catch, a failing file is logged and
skipped while the loop continues with the remaining files. -/
def discoverTypeScriptResources (fs : DiscoveryFS) (urlSalt : UrlSaltState) :
    List ResourceDefinition :=
  if fs.tsResourcesDirExists then
    (fs.tsResourcesFiles.filter isTsResourceFile).foldl
      (fun acc file =>
        match tsFileStep fs urlSalt file with
        | .ok r => acc ++ [r]
        | .error _ => acc) []
  else []

/-! ## Concrete fixtures used by witnesses and counterexamples -/

/-- The schema of end-to-end scenario A: one required string field. -/
def echoSchema : InputSchema := [("msg", FieldType.string)]

def echoConfig : ToolConfig :=
  { name := "echo", description := "Echo a message", inputSchema := some echoSchema }

def okToolResult : ToolResult :=
  { content := [{ type := "text", text := "ran" }], isError := false }

/-- A handler that succeeds on every argument. -/
def okHandler : ToolImplementation := fun _ => .ok okToolResult

/-- A handler that throws on every argument. -/
def boomHandler : ToolImplementation := fun _ => .error "boom"

def echoTool : ToolDefinition := { config := echoConfig, implementation := okHandler }

def demoResourceConfig : ResourceConfig :=
  { uri := "demo://x", name := "demo", description := "A demo resource",
    mimeType := "text/plain" }

def helloResource : ResourceDefinition :=
  { config := demoResourceConfig, producer := .ok { text := some "hello", blob := none } }

/-- A salted-uri resource over the uriId `map`, for a given salt value. -/
def mapResource (saltVal : String) : ResourceDefinition :=
  { config := { uri := "dbk-ts://map?salt=" ++ saltVal, name := "Map",
                description := "A map resource", mimeType := "text/html+skybridge" },
    producer := .ok { text := some "hello", blob := none } }

def missingDirFS : DiscoveryFS :=
  { tsResourcesDirExists := false, tsResourcesFiles := [], fileContents := [] }

/-- A discovery filesystem whose one candidate file has no compiled
bundle under `dist/ts-resources`. -/
def noBundleFS : DiscoveryFS :=
  { tsResourcesDirExists := true, tsResourcesFiles := ["broken.tsx"], fileContents := [] }

def brokenCfg : TypeScriptResourceConfig :=
  { filename := "broken", uriId := "broken", name := "Broken",
    description := "A broken resource" }

def brokenENOENT : String :=
  "ENOENT: no such file or directory, open dist/ts-resources/broken.js"

/-- The resource the factory builds for `brokenCfg` over `noBundleFS`
with salt `123`: its producer resolves with the diagnostic error
text. -/
def brokenResourceDef : ResourceDefinition :=
  { config := { uri := "dbk-ts://broken?salt=123", name := "Broken",
                description := "A broken resource", mimeType := "text/html+skybridge" },
    producer := .ok { text := some (tsResourceErrorText "broken" brokenENOENT), blob := none } }

/-! ## Helper lemmas -/

/-- String concatenation is left-cancellative. -/
theorem strAppend_left_cancel {a b c : String} (h : a ++ b = a ++ c) : b = c := by
  have hd : a.data ++ b.data = a.data ++ c.data := by
    have h2 := congrArg String.data h
    simpa using h2
  have h3 := List.append_cancel_left hd
  cases b
  cases c
  simp at h3
  simp [h3]

/-- A fold that appends the payload of every successful step keeps one
output element per input element when every step succeeds. -/
theorem foldl_collect_ok_length (step : String → Except String ResourceDefinition)
    (files : List String) (acc : List ResourceDefinition)
    (h : ∀ f, f ∈ files → (step f).isOk = true) :
    (files.foldl (fun a file =>
      match step file with
      | .ok r => a ++ [r]
      | .error _ => a) acc).length = acc.length + files.length := by
  induction files generalizing acc with
  | nil => simp
  | cons f fs ih =>
    have hf := h f (by simp)
    cases hstep : step f with
    | ok r =>
      simp only [List.foldl_cons, hstep]
      rw [ih (acc ++ [r]) (fun g hg => h g (by simp [hg]))]
      simp
      omega
    | error e =>
      rw [hstep] at hf
      simp [Except.isOk, Except.toBool] at hf

/-- A file step over an initialized salt store always succeeds. -/
theorem tsFileStep_isOk (fs : DiscoveryFS) (s : String) (hs : s ≠ "") (file : String) :
    (tsFileStep fs (some s) file).isOk = true := by
  simp [tsFileStep, createTypeScriptResource, createSaltedUri, getUrlSalt, hs,
    Except.map, Except.isOk, Except.toBool]

/-! ## Claim theorems -/

/-- C1 counterexample: the raw argument `undefined` violates the echo
tool schema (the zod parse rejects it), yet the invoke wrapper skips
validation because the value is not a non-null object, the handler runs
on the raw value, and the returned result is not error-flagged. -/
theorem invoke_nonobject_bypasses_validation_cex :
    (zodObjectParse echoSchema JSValue.undefined).isOk = false ∧
    toolInvoke echoConfig okHandler JSValue.undefined = (okToolResult, some JSValue.undefined) ∧
    okToolResult.isError = false :=
  ⟨rfl, rfl, rfl⟩

/-- C1 (amended): for every registered tool with a declared inputSchema
and every raw argument value that is a non-null object and violates a
constraint of that schema, invoking the tool returns an error-flagged
result and the handler is never called — validation happens strictly
before any handler side effect runs. -/
theorem invoke_object_validation_rejects (config : ToolConfig)
    (implementation : ToolImplementation) (schema : InputSchema)
    (fields : List (String × JSValue)) (msg : String)
    (hs : config.inputSchema = some schema)
    (hv : zodObjectParse schema (.obj fields) = .error msg) :
    toolInvoke config implementation (.obj fields) =
      (validationErrorResult config.name msg, none) ∧
    (validationErrorResult config.name msg).isError = true := by
  constructor
  · simp [toolInvoke, hs, hv]
  · rfl

/-- C1 witness: the echo tool invoked with an object whose `msg` field
is a number is rejected without reaching the handler. -/
theorem invoke_object_validation_rejects_witness :
    toolInvoke echoConfig okHandler (.obj [("msg", .number 5)]) =
      (validationErrorResult "echo" "msg: Expected string, received number", none) ∧
    (validationErrorResult "echo" "msg: Expected string, received number").isError = true :=
  invoke_object_validation_rejects echoConfig okHandler echoSchema
    [("msg", .number 5)] "msg: Expected string, received number" rfl rfl

/-- C2 counterexample: a resource read whose producer throws does not
return a result value — the read callback rethrows a wrapped error
(`Except.error` models a thrown exception crossing the registry
boundary). -/
theorem resource_read_rethrows_cex :
    ResourceRegistry.readCallback demoResourceConfig (.error "boom") =
      .error "Error reading resource demo://x: boom" :=
  rfl

/-- C2 (amended): the tool invoke wrapper never lets an exception past
the registry boundary — a handler that throws yields an error-flagged
result value — and the resource read callback returns a result value
whenever the producer resolves; but when the producer throws, the read
callback rethrows a descriptive error naming the offending uri instead
of returning a result value. -/
theorem registry_error_propagation (config : ToolConfig)
    (implementation : ToolImplementation) (args : JSValue) (m : String)
    (rc : ResourceConfig) (out : ProducerOutput)
    (him : ∀ a, implementation a = .error m) :
    (toolInvoke config implementation args).1.isError = true ∧
    ResourceRegistry.readCallback rc (.ok out) =
      .ok { contents := [normalizeContent rc out] } ∧
    ResourceRegistry.readCallback rc (.error m) =
      .error ("Error reading resource " ++ rc.uri ++ ": " ++ m) := by
  refine ⟨?_, rfl, rfl⟩
  cases hc : config.inputSchema with
  | none =>
    cases args <;> simp [toolInvoke, hc, runHandler, him, executionErrorResult]
  | some schema =>
    cases args with
    | obj fields =>
      cases hz : zodObjectParse schema (.obj fields) with
      | ok p => simp [toolInvoke, hc, hz, runHandler, him, executionErrorResult]
      | error msg => simp [toolInvoke, hc, hz, validationErrorResult]
    | undefined => simp [toolInvoke, hc, runHandler, him, executionErrorResult]
    | null => simp [toolInvoke, hc, runHandler, him, executionErrorResult]
    | boolean b => simp [toolInvoke, hc, runHandler, him, executionErrorResult]
    | number n => simp [toolInvoke, hc, runHandler, him, executionErrorResult]
    | str s => simp [toolInvoke, hc, runHandler, him, executionErrorResult]

/-- C2 witness: a throwing handler on the echo tool is converted to an
error-flagged result; the demo resource read returns a value on
success and rethrows a uri-naming error when the producer throws. -/
theorem registry_error_propagation_witness :
    (toolInvoke echoConfig boomHandler (.obj [("msg", .str "hi")])).1.isError = true ∧
    ResourceRegistry.readCallback demoResourceConfig
        (.ok { text := some "hello", blob := none }) =
      .ok { contents := [normalizeContent demoResourceConfig
        { text := some "hello", blob := none }] } ∧
    ResourceRegistry.readCallback demoResourceConfig (.error "boom") =
      .error ("Error reading resource " ++ demoResourceConfig.uri ++ ": " ++ "boom") :=
  registry_error_propagation echoConfig boomHandler (.obj [("msg", .str "hi")]) "boom"
    demoResourceConfig { text := some "hello", blob := none } (fun _ => rfl)

/-- C3: for every resource read and every producer output, the content
object built by the read callback has exactly one of text and blob
populated — text when the producer supplied text, else blob when
supplied, else the explicit empty-text marker — and carries the
registered uri and mimeType. -/
theorem resource_content_exactly_one_encoding (config : ResourceConfig)
    (out : ProducerOutput) :
    ((∃ t, (normalizeContent config out).text = some t) ∧
        (normalizeContent config out).blob = none ∨
      (normalizeContent config out).text = none ∧
        ∃ b, (normalizeContent config out).blob = some b) ∧
    (normalizeContent config out).uri = config.uri ∧
    (normalizeContent config out).mimeType = config.mimeType ∧
    (∀ t, out.text = some t → (normalizeContent config out).text = some t) ∧
    (∀ b, out.text = none → out.blob = some b →
      (normalizeContent config out).blob = some b) ∧
    (out.text = none → out.blob = none → (normalizeContent config out).text = some "") ∧
    ResourceRegistry.readCallback config (.ok out) =
      .ok { contents := [normalizeContent config out] } := by
  obtain ⟨t, b⟩ := out
  cases t <;> cases b <;>
    simp [normalizeContent, ResourceRegistry.readCallback]

/-- C4: in both registries the first registration of an identifier
succeeds and a second registration under the same identifier throws. -/
theorem duplicate_registration_rejected (treg : ToolRegistry) (t t2 : ToolDefinition)
    (rreg : ResourceRegistry) (r r2 : ResourceDefinition)
    (ht : ToolRegistry.hasName treg t.config.name = false)
    (hn : t2.config.name = t.config.name)
    (hr : ResourceRegistry.hasUri rreg r.config.uri = false)
    (hu : r2.config.uri = r.config.uri) :
    ToolRegistry.register treg t = .ok (treg ++ [(t.config.name, t)]) ∧
    ToolRegistry.register (treg ++ [(t.config.name, t)]) t2 =
      .error ("Tool \x27" ++ t2.config.name ++ "\x27 is already registered") ∧
    ResourceRegistry.register rreg r = .ok (rreg ++ [(r.config.uri, r)]) ∧
    ResourceRegistry.register (rreg ++ [(r.config.uri, r)]) r2 =
      .error ("Resource \x27" ++ r2.config.uri ++ "\x27 is already registered") := by
  have h2 : ToolRegistry.hasName (treg ++ [(t.config.name, t)]) t2.config.name = true := by
    simp [ToolRegistry.hasName, hn]
  have h4 : ResourceRegistry.hasUri (rreg ++ [(r.config.uri, r)]) r2.config.uri = true := by
    simp [ResourceRegistry.hasUri, hu]
  refine ⟨?_, ?_, ?_, ?_⟩
  · simp [ToolRegistry.register, ht]
  · simp [ToolRegistry.register, h2]
  · simp [ResourceRegistry.register, hr]
  · simp [ResourceRegistry.register, h4]

/-- C4 witness: registering the echo tool twice into an empty registry,
and the demo resource twice into an empty registry, each fail on the
second attempt. -/
theorem duplicate_registration_rejected_witness :
    ToolRegistry.register [] echoTool = .ok ([] ++ [(echoTool.config.name, echoTool)]) ∧
    ToolRegistry.register ([] ++ [(echoTool.config.name, echoTool)]) echoTool =
      .error ("Tool \x27" ++ echoTool.config.name ++ "\x27 is already registered") ∧
    ResourceRegistry.register [] helloResource =
      .ok ([] ++ [(helloResource.config.uri, helloResource)]) ∧
    ResourceRegistry.register ([] ++ [(helloResource.config.uri, helloResource)])
        helloResource =
      .error ("Resource \x27" ++ helloResource.config.uri ++ "\x27 is already registered") :=
  duplicate_registration_rejected [] echoTool echoTool [] helloResource helloResource
    rfl rfl rfl rfl

/-- C5: `initializeUrlSalt` derives the salt from the process start time
unconditionally — it reads no TS_SALT override — so two processes
started at different times produce different salts and different salted
uris even under a fixed override, while the documented precedence
(modelled from the spec) would give both processes the identical
override value. -/
theorem salt_override_not_implemented :
    initializeUrlSalt 1700000000000 = some "1700000000000" ∧
    initializeUrlSalt 1700000000001 = some "1700000000001" ∧
    ("1700000000000" : String) ≠ "1700000000001" ∧
    initializeUrlSaltDocumented (some "v1.2.3") 1700000000000 = "v1.2.3" ∧
    initializeUrlSaltDocumented (some "v1.2.3") 1700000000001 = "v1.2.3" ∧
    createSaltedUri (initializeUrlSalt 1700000000000) "map" =
      .ok "dbk-ts://map?salt=1700000000000" ∧
    createSaltedUri (initializeUrlSalt 1700000000001) "map" =
      .ok "dbk-ts://map?salt=1700000000001" :=
  ⟨rfl, rfl, by decide, rfl, rfl, rfl, rfl⟩

/-- C6 counterexample: two registrations whose uris are the salted uris
of the same uriId `map` under salts `1` and `2` are both accepted — the
duplicate check does not strip the salt, so they are not treated as the
same identifier. -/
theorem salted_duplicate_not_detected_cex :
    createSaltedUri (some "1") "map" = .ok (mapResource "1").config.uri ∧
    createSaltedUri (some "2") "map" = .ok (mapResource "2").config.uri ∧
    ResourceRegistry.register [] (mapResource "1") =
      .ok [((mapResource "1").config.uri, mapResource "1")] ∧
    (ResourceRegistry.register [((mapResource "1").config.uri, mapResource "1")]
      (mapResource "2")).isOk = true :=
  ⟨rfl, rfl, rfl, rfl⟩

/-- C6 (amended): the registry stores the full salted uri as its
uniqueness key and the duplicate check compares that raw string, salt
included; two registrations that differ only in their salt value are
treated as distinct identifiers and the second is accepted. -/
theorem registry_key_includes_salt (uriId s1 s2 : String)
    (d1 d2 : ResourceDefinition) (reg1 : ResourceRegistry)
    (h1 : d1.config.uri = "dbk-ts://" ++ uriId ++ "?salt=" ++ s1)
    (h2 : d2.config.uri = "dbk-ts://" ++ uriId ++ "?salt=" ++ s2)
    (hs : s1 ≠ s2)
    (hreg : ResourceRegistry.register [] d1 = .ok reg1) :
    ResourceRegistry.hasUri reg1 d1.config.uri = true ∧
    ResourceRegistry.hasUri reg1 d2.config.uri = false ∧
    (ResourceRegistry.register reg1 d2).isOk = true := by
  have hne : d1.config.uri ≠ d2.config.uri := by
    rw [h1, h2]
    intro he
    exact hs (strAppend_left_cancel he)
  have hr1 : reg1 = [(d1.config.uri, d1)] := by
    simp [ResourceRegistry.register, ResourceRegistry.hasUri] at hreg
    exact hreg.symm
  subst hr1
  have hfalse : ResourceRegistry.hasUri [(d1.config.uri, d1)] d2.config.uri = false := by
    simp [ResourceRegistry.hasUri]
    exact hne
  refine ⟨by simp [ResourceRegistry.hasUri], hfalse, ?_⟩
  simp [ResourceRegistry.register, hfalse, Except.isOk, Except.toBool]

/-- C6 witness: the salted map uris under salts 1 and 2 exercise the
amended statement. -/
theorem registry_key_includes_salt_witness :
    ResourceRegistry.hasUri [((mapResource "1").config.uri, mapResource "1")]
      (mapResource "1").config.uri = true ∧
    ResourceRegistry.hasUri [((mapResource "1").config.uri, mapResource "1")]
      (mapResource "2").config.uri = false ∧
    (ResourceRegistry.register [((mapResource "1").config.uri, mapResource "1")]
      (mapResource "2")).isOk = true :=
  registry_key_includes_salt "map" "1" "2" (mapResource "1") (mapResource "2")
    [((mapResource "1").config.uri, mapResource "1")] rfl rfl (by decide) rfl

/-- C7: with the salt store initialized to a non-empty salt, reading the
salt leaves the state unchanged and returns the same string, a second
read through the returned state returns the identical string, and the
salted uri of any id is the fixed string dbk-ts://id?salt=salt on every
composition. -/
theorem salt_read_idempotent (s id : String) (hs : s ≠ "") :
    getUrlSaltSt (some s) = .ok (s, some s) ∧
    (getUrlSaltSt (some s)).bind (fun p => getUrlSaltSt p.2) = .ok (s, some s) ∧
    createSaltedUri (some s) id = .ok ("dbk-ts://" ++ id ++ "?salt=" ++ s) := by
  have hg : getUrlSalt (some s) = .ok s := by
    simp [getUrlSalt, hs]
  refine ⟨?_, ?_, ?_⟩
  · simp [getUrlSaltSt, hg, Except.map]
  · simp [getUrlSaltSt, hg, Except.map, Except.bind]
  · simp [createSaltedUri, hg, Except.map]

/-- C7 witness: the initialized salt 1700000000000 and the id carousel. -/
theorem salt_read_idempotent_witness :
    getUrlSaltSt (some "1700000000000") = .ok ("1700000000000", some "1700000000000") ∧
    (getUrlSaltSt (some "1700000000000")).bind (fun p => getUrlSaltSt p.2) =
      .ok ("1700000000000", some "1700000000000") ∧
    createSaltedUri (some "1700000000000") "carousel" =
      .ok ("dbk-ts://" ++ "carousel" ++ "?salt=" ++ "1700000000000") :=
  salt_read_idempotent "1700000000000" "carousel" (by decide)

/-- C8: discovery over a missing directory yields the empty list for any
salt state; with an initialized salt, every candidate file of any
discovery filesystem is registered regardless of its readability or of
its bundle being present (one file degrading never drops another); and
reading a discovered resource whose bundle read fails resolves to the
diagnostic error text payload instead of throwing. -/
theorem discovery_fault_isolation (fs fs2 : DiscoveryFS) (s : String)
    (cfg : TypeScriptResourceConfig) (d : ResourceDefinition) (m : String)
    (hdir : fs.tsResourcesDirExists = false)
    (hs : s ≠ "")
    (hcreate : createTypeScriptResource (some s) fs2 cfg = .ok d)
    (hmiss : fsReadE fs2 ("dist/ts-resources/" ++ cfg.filename ++ ".js") = .error m) :
    (∀ σ, discoverTypeScriptResources fs σ = []) ∧
    (∀ g : DiscoveryFS, g.tsResourcesDirExists = true →
      (discoverTypeScriptResources g (some s)).length =
        (g.tsResourcesFiles.filter isTsResourceFile).length) ∧
    ResourceRegistry.readCallback d.config d.producer =
      .ok { contents := [{ uri := d.config.uri, mimeType := d.config.mimeType,
                           text := some (tsResourceErrorText cfg.filename m),
                           blob := none }] } := by
  refine ⟨?_, ?_, ?_⟩
  · intro σ
    simp [discoverTypeScriptResources, hdir]
  · intro g hg
    rw [discoverTypeScriptResources, if_pos hg]
    rw [foldl_collect_ok_length (tsFileStep g (some s))
      (g.tsResourcesFiles.filter isTsResourceFile) []
      (fun f _ => tsFileStep_isOk g s hs f)]
    simp
  · have hsalt : createSaltedUri (some s) cfg.uriId =
        .ok ("dbk-ts://" ++ cfg.uriId ++ "?salt=" ++ s) := by
      simp [createSaltedUri, getUrlSalt, hs, Except.map]
    rw [createTypeScriptResource, hsalt] at hcreate
    simp only [Except.ok.injEq] at hcreate
    subst hcreate
    simp [ResourceRegistry.readCallback, tsResourceImplementation, hmiss,
      normalizeContent]

/-- C8 witness: a filesystem without the discovery directory, and a
single candidate whose compiled bundle is absent, served as the
diagnostic error text. -/
theorem discovery_fault_isolation_witness :
    (∀ σ, discoverTypeScriptResources missingDirFS σ = []) ∧
    (∀ g : DiscoveryFS, g.tsResourcesDirExists = true →
      (discoverTypeScriptResources g (some "123")).length =
        (g.tsResourcesFiles.filter isTsResourceFile).length) ∧
    ResourceRegistry.readCallback brokenResourceDef.config brokenResourceDef.producer =
      .ok { contents := [{ uri := brokenResourceDef.config.uri,
                           mimeType := brokenResourceDef.config.mimeType,
                           text := some (tsResourceErrorText brokenCfg.filename brokenENOENT),
                           blob := none }] } :=
  discovery_fault_isolation missingDirFS noBundleFS "123" brokenCfg brokenResourceDef
    brokenENOENT rfl (by decide) rfl rfl

/-- C10: whenever the tool config declares no inputSchema or the raw
argument value is not a non-null object (undefined, null, or any other
non-object value), the invoke wrapper skips validation entirely and the
handler is invoked directly with the raw, unvalidated value; the
wrapper result is the handler outcome converted at the boundary. -/
theorem validation_skipped_for_nonobject_args (config : ToolConfig)
    (implementation : ToolImplementation) (args : JSValue)
    (h : config.inputSchema = none ∨ args.isNonNullObject = false) :
    (toolInvoke config implementation args).2 = some args ∧
    (∀ r, implementation args = .ok r →
      toolInvoke config implementation args = (r, some args)) ∧
    (∀ m, implementation args = .error m →
      toolInvoke config implementation args =
        (executionErrorResult config.name m, some args)) := by
  have key : toolInvoke config implementation args = runHandler config implementation args := by
    rcases h with h | h
    · cases args <;> simp [toolInvoke, h]
    · cases hc : config.inputSchema with
      | none => cases args <;> simp [toolInvoke, hc]
      | some schema =>
        cases args with
        | obj fields => simp [JSValue.isNonNullObject] at h
        | undefined => simp [toolInvoke, hc]
        | null => simp [toolInvoke, hc]
        | boolean b => simp [toolInvoke, hc]
        | number n => simp [toolInvoke, hc]
        | str t => simp [toolInvoke, hc]
  refine ⟨?_, ?_, ?_⟩
  · rw [key]
    cases himpl : implementation args <;> simp [runHandler, himpl]
  · intro r hr
    rw [key]
    simp [runHandler, hr]
  · intro m hm
    rw [key]
    simp [runHandler, hm]

/-- C10 witness: the echo tool declares a schema, yet a raw string
argument reaches the handler unvalidated. -/
theorem validation_skipped_for_nonobject_args_witness :
    (toolInvoke echoConfig okHandler (.str "hi")).2 = some (.str "hi") ∧
    (∀ r, okHandler (.str "hi") = .ok r →
      toolInvoke echoConfig okHandler (.str "hi") = (r, some (.str "hi"))) ∧
    (∀ m, okHandler (.str "hi") = .error m →
      toolInvoke echoConfig okHandler (.str "hi") =
        (executionErrorResult echoConfig.name m, some (.str "hi"))) :=
  validation_skipped_for_nonobject_args echoConfig okHandler (.str "hi") (Or.inr rfl)
